import Mathlib

set_option maxRecDepth 4000

/-
Shallow embedding of run_myco.py (MycoRunner), the process supervisor for the
Myco latency-test harness.  External commands (lsof, netstat, pgrep, kill,
pkill) are modelled by an environment that maps each invocation to either a
captured result or `none`, where `none` stands for the call raising an
OSError / SubprocessError (e.g. the binary is missing).  Side effects (kills,
sleeps, selected console prints) are collected in an effect trace.  Time in
the readiness-polling loop is measured in ticks of the fixed 0.1 s sleep, so
the 30 s / 60 s timeouts become 300 / 600 ticks.
-/

namespace Myco

/-- Captured result of a subprocess.run call with check=False. -/
structure CmdResult where
  returncode : Int
  stdout : String
deriving Repr, DecidableEq

/-- Responses of the outside world to the discovery commands issued by
cleanup_ports / check_ports_free.  `none` means the invocation raised
(OSError or SubprocessError), e.g. because the tool is not installed. -/
structure Env where
  lsof : Nat → Option CmdResult
  netstat : Nat → Option CmdResult
  pgrepRpc : Option CmdResult
  pgrepCargo : Option CmdResult

/-- Observable side effects of the supervisor. -/
inductive Eff where
  | kill (pid : String)
  | sleepMs (ms : Nat)
  | pkill (pat : String)
  | term (pid : Nat)
  | killProc (pid : Nat)
  | echo (msg : String)
deriving Repr, DecidableEq

/-- Does the second character list start with the first? -/
def charsStartWith : List Char → List Char → Bool
  | [], _ => true
  | _ :: _, [] => false
  | a :: as, b :: bs => a == b && charsStartWith as bs

/-- Does the needle occur contiguously inside the haystack? -/
def charsInfix (needle : List Char) : List Char → Bool
  | [] => charsStartWith needle []
  | b :: bs => charsStartWith needle (b :: bs) || charsInfix needle bs

/-- Python substring test `needle in hay`. -/
def strContains (hay needle : String) : Bool :=
  charsInfix needle.data hay.data

/-- Drop leading whitespace characters. -/
def dropLeadingWs : List Char → List Char
  | [] => []
  | c :: cs => if c.isWhitespace then dropLeadingWs cs else c :: cs

/-- Python str.strip(): remove leading and trailing whitespace.
(Implemented over the character list so that it reduces in the kernel;
the library String.trim is defined by well-founded recursion on byte
positions and does not.) -/
def pyStrip (s : String) : String :=
  ⟨dropLeadingWs ((dropLeadingWs s.data.reverse).reverse)⟩

/-- Split a character list at every occurrence of sep (Python
str.split(sep): no empty result list, empty pieces kept). -/
def splitOnChar (sep : Char) : List Char → List (List Char)
  | [] => [[]]
  | c :: cs =>
    let r := splitOnChar sep cs
    if c == sep then [] :: r
    else
      match r with
      | [] => [[c]]
      | h :: t => (c :: h) :: t

/-- Python s.split(sep) for a one-character separator. -/
def pySplitOn (s : String) (sep : Char) : List String :=
  (splitOnChar sep s.data).map (fun l => ⟨l⟩)

/-- Worker for Python str.split() with no argument. -/
def splitWsAux : List Char → List Char → List (List Char)
  | [], acc => if acc = [] then [] else [acc.reverse]
  | c :: cs, acc =>
    if c.isWhitespace then
      if acc = [] then splitWsAux cs [] else acc.reverse :: splitWsAux cs []
    else splitWsAux cs (c :: acc)

/-- Python str.split() with no argument: split on whitespace runs,
dropping empty pieces. -/
def pySplitWs (s : String) : List String :=
  (splitWsAux s.data []).map (fun l => ⟨l⟩)

/-- The characters before the first occurrence of sep: Python
s.split(sep)[0]. -/
def beforeChar (sep : Char) : List Char → List Char
  | [] => []
  | c :: cs => if c == sep then [] else c :: beforeChar sep cs

/-- Python str.isdigit(): nonempty and all digits. -/
def pyIsDigit (s : String) : Bool :=
  s ≠ "" && s.data.all Char.isDigit

/-- The two managed ports (run_myco.py line 30). -/
def ports : List Nat := [3002, 3004]

def portColon (p : Nat) : String := ":" ++ toString p

/-- Kill loop over the pid list returned by lsof (lines 43-49): kill -9 each
nonempty pid, with a 0.1 s pause after each kill; killed_any is set at each
kill site. -/
def killLoop : List String → List Eff × Bool
  | [] => ([], false)
  | pid :: rest =>
    let r := killLoop rest
    if pyStrip pid ≠ "" then (Eff.kill (pyStrip pid) :: Eff.sleepMs 100 :: r.1, true) else r

/-- Method 1 (lines 35-49): if lsof exited 0 with nonempty output, kill each
listed pid. -/
def lsofKills (r : CmdResult) : List Eff × Bool :=
  if r.returncode = 0 ∧ pyStrip r.stdout ≠ "" then killLoop (pySplitOn (pyStrip r.stdout) '\n')
  else ([], false)

/-- Inner loop of method 2 (lines 63-70): scan the whitespace-split fields of
a netstat line; any field containing a slash has its leading component taken
as a pid and, if numeric, killed. -/
def netstatParts : List String → List Eff × Bool
  | [] => ([], false)
  | part :: rest =>
    let r := netstatParts rest
    if strContains part "/" then
      let pid : String := ⟨beforeChar '/' part.data⟩
      if pyIsDigit pid then (Eff.kill pid :: r.1, true) else r
    else r

/-- Line loop of method 2 (lines 60-70): a line mentioning the port and
LISTEN is scanned for a pid field. -/
def netstatLines (p : Nat) : List String → List Eff × Bool
  | [] => ([], false)
  | line :: rest =>
    let r := netstatLines p rest
    if strContains line (portColon p) && strContains line "LISTEN" then
      let q := netstatParts (pySplitWs line)
      (q.1 ++ r.1, q.2 || r.2)
    else r

/-- Method 2 (lines 52-72): parse the full netstat -tulpn table. -/
def netstatKills (p : Nat) (r : CmdResult) : List Eff × Bool :=
  if r.returncode = 0 then netstatLines p (pySplitOn r.stdout '\n') else ([], false)

/-- One iteration of the per-port loop of cleanup_ports (lines 33-76).  The
outer try (line 34) covers both the lsof pass and the netstat pass, so a
raising lsof call (Env.lsof = none) jumps straight to the outer except at
line 74 and the netstat pass does not run for that port; a raising netstat
call is caught by the inner except (line 71) on its own. -/
def portPass (env : Env) (p : Nat) : List Eff × Bool :=
  match env.lsof p with
  | none => ([], false)
  | some r =>
    let a := lsofKills r
    let b :=
      match env.netstat p with
      | none => ([], false)
      | some r2 => netstatKills p r2
    (a.1 ++ b.1, a.2 || b.2)

/-- Kill loop shared by methods 3 and 4 (lines 82-87 and 95-100): kill each
nonempty pid from pgrep output; no pause between kills. -/
def pgrepLoop : List String → List Eff × Bool
  | [] => ([], false)
  | pid :: rest =>
    let r := pgrepLoop rest
    if pyStrip pid ≠ "" then (Eff.kill (pyStrip pid) :: r.1, true) else r

/-- Methods 3 / 4 (lines 79-102): pgrep for a pattern, then kill every match;
a raising pgrep is caught (lines 88, 101). -/
def pgrepKills : Option CmdResult → List Eff × Bool
  | none => ([], false)
  | some r =>
    if r.returncode = 0 ∧ pyStrip r.stdout ≠ "" then pgrepLoop (pySplitOn (pyStrip r.stdout) '\n')
    else ([], false)

/-- Methods 1-4 of cleanup_ports (lines 28-102): the per-port lsof+netstat
passes, then the rpc_server pgrep sweep, then the cargo pgrep sweep.
The Bool is the final value of the local variable killed_any. -/
def cleanup_ports_body (env : Env) : List Eff × Bool :=
  let pp := ports.foldl
    (fun acc p =>
      let q := portPass env p
      (acc.1 ++ q.1, acc.2 || q.2))
    ([], false)
  let m3 := pgrepKills env.pgrepRpc
  let m4 := pgrepKills env.pgrepCargo
  (pp.1 ++ m3.1 ++ m4.1, pp.2 || m3.2 || m4.2)

/-- MycoRunner.cleanup_ports (lines 28-106): methods 1-4, then, if anything
was killed, a 2 s sleep before returning (lines 104-106).  The returned pair
(effect trace, killed_any) is instrumentation; the Python function itself
falls off the end with no return statement. -/
def cleanup_ports (env : Env) : List Eff × Bool :=
  let b := cleanup_ports_body env
  (b.1 ++ (if b.2 then [Eff.sleepMs 2000] else []), b.2)

/-- The value MycoRunner.cleanup_ports hands back to its caller: the Python
function body has no return statement, so every call returns None (embedded
as Unit); the killed_any flag never leaves the function. -/
def cleanup_ports_ret (env : Env) : Unit :=
  let _ := cleanup_ports env
  ()

/-- One port of check_ports_free (lines 111-123): in use iff lsof ran,
exited 0 and printed something; a raising lsof is caught and the port is
treated as free. -/
def portInUse (env : Env) (p : Nat) : Bool :=
  match env.lsof p with
  | none => false
  | some r => if r.returncode = 0 ∧ pyStrip r.stdout ≠ "" then true else false

/-- MycoRunner.check_ports_free (lines 108-124): true iff no managed port
shows an owner. -/
def check_ports_free (env : Env) : Bool :=
  ports.all (fun p => !portInUse env p)

/-- A tracked child process as the cleanup loop sees it: alive is whether
poll() returns None; diesOnTerm / diesOnKill abstract whether the 3 s wait
after terminate() resp. the 2 s wait after kill() reap it. -/
structure Proc where
  pid : Nat
  alive : Bool
  diesOnTerm : Bool
  diesOnKill : Bool
deriving Repr, DecidableEq

/-- One tracked process in MycoRunner.cleanup (lines 131-143): a dead
process (poll() not None) is skipped entirely; a live one gets terminate();
if the 3 s wait times out it gets kill() and a second 2 s wait whose
TimeoutExpired is swallowed, leaving the process alive but the loop
continuing without error. -/
def cleanupProc (p : Proc) : Proc × List Eff :=
  if p.alive then
    if p.diesOnTerm then ({ p with alive := false }, [Eff.term p.pid])
    else if p.diesOnKill then ({ p with alive := false }, [Eff.term p.pid, Eff.killProc p.pid])
    else (p, [Eff.term p.pid, Eff.killProc p.pid])
  else (p, [])

/-- The loop of cleanup over self.processes (line 131). -/
def cleanupTracked : List Proc → List Proc × List Eff
  | [] => ([], [])
  | p :: rest =>
    let a := cleanupProc p
    let b := cleanupTracked rest
    (a.1 :: b.1, a.2 ++ b.2)

/-- The mutable state of MycoRunner that cleanup touches: the tracked
process list. -/
structure RunnerState where
  processes : List Proc
deriving Repr, DecidableEq

/-- The banner cleanup prints on entry (line 128); counting its occurrences
in a trace counts cleanup invocations. -/
def cleanupBanner : String := "Cleaning up processes..."

/-- MycoRunner.cleanup (lines 126-154): banner, graceful-then-forceful pass
over the tracked processes, cleanup_ports, and a final best-effort pkill of
rpc_server.  Every fallible step is wrapped in the code, so the embedding is
a total function: no path propagates an error. -/
def cleanup (s : RunnerState) (env : Env) : RunnerState × List Eff :=
  let a := cleanupTracked s.processes
  let b := cleanup_ports env
  (⟨a.1⟩, Eff.echo cleanupBanner :: (a.2 ++ b.1 ++ [Eff.pkill "rpc_server"]))

/-- MycoRunner.signal_handler (lines 156-160): on SIGINT/SIGTERM it runs
cleanup and then calls sys.exit(0) — the third component is the process
exit status the handler requests. -/
def signal_handler (s : RunnerState) (env : Env) (_signum : Nat) : RunnerState × List Eff × Nat :=
  let c := cleanup s env
  (c.1, c.2, 0)

/-- What one readline() call on the child's combined output does.  The pipe
is in blocking mode (Popen with bufsize=0 and no O_NONBLOCK), so either a
line is already available / arrives at once (line, where "" is EOF), the
read raises promptly (err: OSError or UnicodeDecodeError, caught at line
186), or no data ever arrives and readline never returns (never). -/
inductive ReadEvent where
  | line (s : String)
  | err
  | never

/-- Behaviour of one child process as seen by the polling loop, per
iteration index: poll() result and readline() outcome. -/
structure WaitEnv where
  poll : Nat → Option Int
  read : Nat → ReadEvent

def server2Marker : String := "Server2 listening on"

def server1Marker : String := "Server1 listening on"

/-- The loop of wait_for_server_ready (lines 169-189), time measured in
ticks of the fixed 0.1 s sleep: fuel is the number of ticks left before the
deadline, i the iteration index.  Per iteration: deadline check, poll()
(non-None exits with False), then a readline(); a nonempty line is stripped
and tested for containment of the marker (True on a hit), an empty line or
a read/decode error falls through; the iteration ends with the 0.1 s sleep.
ReadEvent.never models readline() blocking forever on a silent live child:
the loop never gets back to its deadline check, embedded as result none
(the call does not return). -/
def waitLoop (env : WaitEnv) (marker : String) : Nat → Nat → Option Bool
  | 0, _ => some false
  | fuel + 1, i =>
    if (env.poll i).isSome then some false
    else
      match env.read i with
      | ReadEvent.never => none
      | ReadEvent.line s =>
        if s = "" then waitLoop env marker fuel (i + 1)
        else if strContains (pyStrip s) marker then some true
        else waitLoop env marker fuel (i + 1)
      | ReadEvent.err => waitLoop env marker fuel (i + 1)

/-- MycoRunner.wait_for_server_ready (lines 162-192); the timeout parameter
is in ticks (30 s = 300 ticks).  some true = ready, some false = process
exited or timeout (the Python function returns the same False for both),
none = the call never returns. -/
def wait_for_server_ready (env : WaitEnv) (marker : String) (timeoutTicks : Nat) : Option Bool :=
  waitLoop env marker timeoutTicks 0

/-- A successfully spawned child: its Proc record (state at teardown time)
plus its observable output behaviour. -/
structure ProcHandle where
  proc : Proc
  waitEnv : WaitEnv

/-- MycoRunner.start_server2 (lines 194-217): Popen (none = the spawn
raised, caught at line 215 giving False with nothing tracked); on success
the process is appended to self.processes BEFORE waiting, then
wait_for_server_ready with the Server2 marker and the default 30 s
timeout decides the result. -/
def start_server2 (s : RunnerState) (spawn : Option ProcHandle) : RunnerState × Option Bool :=
  match spawn with
  | none => (s, some false)
  | some h => (⟨s.processes ++ [h.proc]⟩, wait_for_server_ready h.waitEnv server2Marker 300)

/-- MycoRunner.start_server1 (lines 219-243): same shape, Server1 marker,
60 s timeout. -/
def start_server1 (s : RunnerState) (spawn : Option ProcHandle) : RunnerState × Option Bool :=
  match spawn with
  | none => (s, some false)
  | some h => (⟨s.processes ++ [h.proc]⟩, wait_for_server_ready h.waitEnv server1Marker 600)

/-- MycoRunner.run_client (lines 245-277): True iff the client ran and
exited 0; a raised Popen/OSError (none) is caught and gives False. -/
def run_client (r : Option Int) : Bool :=
  match r with
  | none => false
  | some rc => if rc = 0 then true else false

/-- Phase boundaries at which the asynchronous interrupt/termination signal
is modelled as arriving. -/
inductive SigPoint where
  | preflight
  | duringS2
  | duringS1
  | duringClient
deriving Repr, DecidableEq

/-- Everything the outside world decides during one MycoRunner.run: the
environments seen by each external-command pass, the spawn outcomes and
output behaviour of the two servers, the client result (none = the client
command itself raised), and whether/when a signal arrives. -/
structure RunWorld where
  preEnv : Env
  checkEnv1 : Env
  aggrEnv : Env
  checkEnv2 : Env
  sigEnv : Env
  finalEnv : Env
  spawn2 : Option ProcHandle
  spawn1 : Option ProcHandle
  clientResult : Option Int
  sig : Option SigPoint

/-- Outcome of MycoRunner.run: a normal return of success/failure with the
final runner state and effect trace, a process exit forced by sys.exit
inside the signal handler (SystemExit is not caught by run or main), or a
run that never returns because a readiness wait blocked. -/
inductive RunResult where
  | returned (success : Bool) (s : RunnerState) (tr : List Eff)
  | exited (code : Nat) (tr : List Eff)
  | blocked (tr : List Eff)

def traceOf : RunResult → List Eff
  | RunResult.returned _ _ tr => tr
  | RunResult.exited _ tr => tr
  | RunResult.blocked tr => tr

/-- Leaving the try block of run (lines 305-328) normally: the finally at
line 327 runs cleanup exactly once and the computed success value is
returned. -/
def finallyReturn (w : RunWorld) (s : RunnerState) (tr : List Eff) (success : Bool) : RunResult :=
  let c := cleanup s w.finalEnv
  RunResult.returned success c.1 (tr ++ c.2)

/-- A signal arriving while control is inside the try block: the handler
runs cleanup and calls sys.exit(0); the resulting SystemExit unwinds
through the finally, which runs cleanup a second time, and the process
exits with status 0. -/
def sigExit (w : RunWorld) (s : RunnerState) (tr : List Eff) : RunResult :=
  let a := cleanup s w.sigEnv
  let b := cleanup a.1 w.finalEnv
  RunResult.exited 0 (tr ++ a.2 ++ b.2)

/-- The started phases of run (lines 305-328): start Server2, start
Server1, run the client, with the finally-cleanup on every normal exit and
the double-cleanup signal path at each boundary. -/
def runStarted (w : RunWorld) (tr0 : List Eff) : RunResult :=
  let r2 := start_server2 ⟨[]⟩ w.spawn2
  if w.sig = some SigPoint.duringS2 then sigExit w r2.1 tr0
  else
    match r2.2 with
    | none => RunResult.blocked tr0
    | some false => finallyReturn w r2.1 tr0 false
    | some true =>
      let r1 := start_server1 r2.1 w.spawn1
      if w.sig = some SigPoint.duringS1 then sigExit w r1.1 tr0
      else
        match r1.2 with
        | none => RunResult.blocked tr0
        | some false => finallyReturn w r1.1 tr0 false
        | some true =>
          if w.sig = some SigPoint.duringClient then sigExit w r1.1 tr0
          else finallyReturn w r1.1 tr0 (run_client w.clientResult)

/-- MycoRunner.run (lines 279-328): preflight cleanup_ports; port check;
on failure an aggressive pkill pass, a second cleanup_ports and a second
check whose failure returns False at line 303 — BEFORE the try, so no
cleanup runs on that path; then the started phases.  A signal in the
preflight phase exits 0 after a single handler cleanup (no finally is
active yet). -/
def runMyco (w : RunWorld) : RunResult :=
  let pre := (cleanup_ports w.preEnv).1
  if w.sig = some SigPoint.preflight then
    let c := cleanup ⟨[]⟩ w.sigEnv
    RunResult.exited 0 (pre ++ c.2)
  else if check_ports_free w.checkEnv1 then
    runStarted w pre
  else
    let aggr := pre ++ [Eff.pkill "rpc_server", Eff.pkill "cargo.*rpc_server", Eff.sleepMs 1000]
      ++ (cleanup_ports w.aggrEnv).1
    if check_ports_free w.checkEnv2 then runStarted w aggr
    else RunResult.returned false ⟨[]⟩ aggr

/-- Preconditions checked by main (lines 330-343) plus the run world. -/
structure MainWorld where
  justfileExists : Bool
  justAvailable : Bool
  runWorld : RunWorld

/-- main (lines 330-353): missing justfile or missing/broken just exits 1
before anything runs; otherwise the run result decides the exit code
(run returning True gives 0, False gives 1); a SystemExit raised by the
signal handler propagates uncaught, so the handler's status (0) is the
process exit code; none = the process never exits (a wait blocked). -/
def mainMyco (w : MainWorld) : Option (Nat × List Eff) :=
  if !w.justfileExists then some (1, [])
  else if !w.justAvailable then some (1, [])
  else
    match runMyco w.runWorld with
    | RunResult.returned success _ tr => some ((bif success then 0 else 1), tr)
    | RunResult.exited code tr => some (code, tr)
    | RunResult.blocked _ => none

/-- The readiness result start_server2 / start_server1 feed into run: a
failed spawn counts as not ready (False). -/
def readyOutcome (spawn : Option ProcHandle) (marker : String) (ticks : Nat) : Option Bool :=
  match spawn with
  | none => some false
  | some h => wait_for_server_ready h.waitEnv marker ticks

/-- Both dependencies became ready and the client exited 0. -/
def startedClean (w : RunWorld) : Bool :=
  (readyOutcome w.spawn2 server2Marker 300 == some true) &&
  (readyOutcome w.spawn1 server1Marker 600 == some true) &&
  (w.clientResult == some 0)

/-- Full success of a run as enumerated by the spec: preconditions hold,
some port check passes, both servers ready, client exited 0. -/
def runsClean (w : MainWorld) : Bool :=
  w.justfileExists && w.justAvailable &&
  (check_ports_free w.runWorld.checkEnv1 || check_ports_free w.runWorld.checkEnv2) &&
  startedClean w.runWorld

/-- Number of cleanup invocations recorded in a trace. -/
def cleanupCount (tr : List Eff) : Nat :=
  tr.count (Eff.echo cleanupBanner)

/- Concrete worlds used below to evaluate the embedding. -/

/-- World in which every discovery tool raises (none of lsof, netstat,
pgrep is available). -/
def envNone : Env :=
  { lsof := fun _ => none, netstat := fun _ => none, pgrepRpc := none, pgrepCargo := none }

/-- World in which lsof finds pid 123 on port 3002 and nothing else. -/
def envLsofFinds : Env :=
  { lsof := fun p => if p = 3002 then some { returncode := 0, stdout := "123\n" }
      else some { returncode := 1, stdout := "" },
    netstat := fun _ => none, pgrepRpc := none, pgrepCargo := none }

/-- A netstat -tulpn table showing pid 77 listening on port 3002. -/
def netstatTable : CmdResult :=
  { returncode := 0,
    stdout := "Active Internet connections\ntcp6 0 0 :::3002 :::* LISTEN 77/rpc_server\n" }

/-- lsof is not installed (every lsof call raises FileNotFoundError) but
netstat works and shows pid 77 on port 3002. -/
def envLsofMissing : Env :=
  { lsof := fun _ => none, netstat := fun _ => some netstatTable,
    pgrepRpc := none, pgrepCargo := none }

/-- Same world except lsof is installed and simply finds nothing
(exit status 1, empty output). -/
def envLsofEmpty : Env :=
  { envLsofMissing with lsof := fun _ => some { returncode := 1, stdout := "" } }

/-- A child that immediately prints its Server2 marker as part of a longer
log line and stays alive. -/
def readyEnv2 : WaitEnv :=
  { poll := fun _ => none,
    read := fun _ => ReadEvent.line "[server2] Server2 listening on 127.0.0.1:3004 (tls)" }

/-- A child that immediately prints its Server1 marker and stays alive. -/
def readyEnv1 : WaitEnv :=
  { poll := fun _ => none,
    read := fun _ => ReadEvent.line "[server1] Server1 listening on 127.0.0.1:3002" }

/-- A live child that never writes anything: every readline() blocks. -/
def silentEnv : WaitEnv :=
  { poll := fun _ => none, read := fun _ => ReadEvent.never }

/-- A child that has already exited (poll() returns 1) before any output. -/
def exitedEnv : WaitEnv :=
  { poll := fun _ => some 1, read := fun _ => ReadEvent.never }

/-- A live child whose output stream is at EOF: readline() promptly returns
empty, so the loop spins until the timeout. -/
def eofEnv : WaitEnv :=
  { poll := fun _ => none, read := fun _ => ReadEvent.line "" }

/-- A tracked process that is already dead at teardown time. -/
def deadProc (n : Nat) : Proc :=
  { pid := n, alive := false, diesOnTerm := true, diesOnKill := true }

/-- A tracked process that is alive and dies on terminate(). -/
def gentleProc (n : Nat) : Proc :=
  { pid := n, alive := true, diesOnTerm := true, diesOnKill := true }

def hReady2 : ProcHandle := { proc := deadProc 11, waitEnv := readyEnv2 }

def hEofS1 : ProcHandle := { proc := deadProc 12, waitEnv := eofEnv }

def hReady1 : ProcHandle := { proc := deadProc 13, waitEnv := readyEnv1 }

def hExited : ProcHandle := { proc := deadProc 21, waitEnv := exitedEnv }

/-- A child that prints one non-marker startup line and then exits: the
loop echoes the line on iteration 0 and finds poll() non-None on
iteration 1. -/
def exitAfterOutputEnv : WaitEnv :=
  { poll := fun i => if i = 0 then none else some 1,
    read := fun _ => ReadEvent.line "starting up" }

def hLateExit : ProcHandle := { proc := deadProc 23, waitEnv := exitAfterOutputEnv }

def hEof : ProcHandle :=
  { proc := { pid := 22, alive := true, diesOnTerm := true, diesOnKill := true },
    waitEnv := eofEnv }

/-- A run in which Server2 comes up, Server1 is being started, and the user
hits Ctrl+C during the Server1 readiness wait. -/
def wSig : RunWorld :=
  { preEnv := envNone, checkEnv1 := envNone, aggrEnv := envNone, checkEnv2 := envNone,
    sigEnv := envNone, finalEnv := envNone, spawn2 := some hReady2, spawn1 := some hEofS1,
    clientResult := none, sig := some SigPoint.duringS1 }

def wSigMain : MainWorld :=
  { justfileExists := true, justAvailable := true, runWorld := wSig }

/-- A fully successful run: ports free, both servers print their markers at
once, client exits 0, no signal. -/
def wGood : RunWorld :=
  { wSig with spawn1 := some hReady1, clientResult := some 0, sig := none }

def wGoodMain : MainWorld :=
  { justfileExists := true, justAvailable := true, runWorld := wGood }

/- ------------------------------------------------------------------ -/
/- Theorems                                                            -/
/- ------------------------------------------------------------------ -/

/-- Claim C1, counterexample: a signal received with no process tracked
(or any state — see the amended theorem) makes the handler exit with
status 0, refuting the claimed nonzero exit status: signal_handler calls
sys.exit(0) at line 160. -/
theorem signal_exit_code_zero :
    (signal_handler ⟨[]⟩ envNone 2).2.2 = 0 := rfl

/-- Claim C1 (amended): when an interrupt or termination signal is received
in any state, the handler performs the full teardown (cleanup) and then
exits — but with status ZERO, not nonzero. -/
theorem signal_handler_teardown_then_zero (s : RunnerState) (env : Env) (n : Nat) :
    (signal_handler s env n).1 = (cleanup s env).1 ∧
    (signal_handler s env n).2.1 = (cleanup s env).2 ∧
    (signal_handler s env n).2.2 = 0 :=
  ⟨rfl, rfl, rfl⟩

/-- Witness for the amended C1 theorem at a concrete state and signal. -/
theorem signal_handler_teardown_then_zero_witness :
    (signal_handler ⟨[gentleProc 31]⟩ envNone 15).1 = (cleanup ⟨[gentleProc 31]⟩ envNone).1 ∧
    (signal_handler ⟨[gentleProc 31]⟩ envNone 15).2.1 = (cleanup ⟨[gentleProc 31]⟩ envNone).2 ∧
    (signal_handler ⟨[gentleProc 31]⟩ envNone 15).2.2 = 0 :=
  signal_handler_teardown_then_zero ⟨[gentleProc 31]⟩ envNone 15

/-- Claim C3, the blocking-read bug: for a live child that never writes a
line, the first readline() blocks forever, so wait_for_server_ready never
returns (result none) and its 30 s timeout is never enforced — the claimed
TimedOut return (some false) never happens. -/
theorem wait_blocks_on_silent_child :
    wait_for_server_ready silentEnv server2Marker 300 = none := rfl

/-- Claim C4, counterexample: the Python cleanup_ports returns None, so its
return value is identical for a call that killed something (envLsofFinds)
and one that killed nothing (envNone); the killed_any flag with the claimed
logical-OR value stays inside the function and is never returned to the
caller. -/
theorem reclaim_returns_none :
    cleanup_ports_ret envLsofFinds = cleanup_ports_ret envNone ∧
    (cleanup_ports envLsofFinds).2 = true ∧
    (cleanup_ports envNone).2 = false :=
  ⟨rfl, by decide, by decide⟩

/-- Claim C5, counterexample: a process that exits before producing its
marker (hExited) and a process that stays silent until the timeout (hEof)
make start_server2 return the very same value (some false, i.e. a bare
False), so the returned failure cannot be carrying a ProcessExited
outcome. -/
theorem start_failure_indistinguishable :
    (start_server2 ⟨[]⟩ (some hExited)).2 = some false ∧
    (start_server2 ⟨[]⟩ (some hEof)).2 = some false :=
  ⟨by decide, by decide⟩

/-- If the process stays alive for k iterations, producing only lines
without the marker (or empty lines, or read/decode errors), and poll()
reports it exited at iteration k within the deadline, the polling loop
returns False at iteration k. -/
theorem waitLoop_reaches_exit (env : WaitEnv) (marker : String) :
    ∀ k fuel i, k < fuel →
    (∀ j, j < k → env.poll (i + j) = none) →
    (∀ j, j < k → (∃ s, env.read (i + j) = ReadEvent.line s ∧
        (s = "" ∨ strContains (pyStrip s) marker = false)) ∨
      env.read (i + j) = ReadEvent.err) →
    (∃ c, env.poll (i + k) = some c) →
    waitLoop env marker fuel i = some false := by
  intro k
  induction k with
  | zero =>
    intro fuel i hf _ _ hm
    obtain ⟨c, hc⟩ := hm
    match fuel, hf with
    | fuel + 1, _ =>
      have hc' : env.poll i = some c := by simpa using hc
      simp [waitLoop, hc']
  | succ k ih =>
    intro fuel i hf hp hpre hm
    match fuel, hf with
    | fuel + 1, hf =>
      have hp0 : env.poll i = none := by simpa using hp 0 (Nat.succ_pos k)
      have hrec : waitLoop env marker fuel (i + 1) = some false := by
        apply ih fuel (i + 1) (Nat.lt_of_succ_lt_succ hf)
        · intro j hj
          have := hp (j + 1) (Nat.succ_lt_succ hj)
          rwa [show i + (j + 1) = i + 1 + j by omega] at this
        · intro j hj
          have := hpre (j + 1) (Nat.succ_lt_succ hj)
          rwa [show i + (j + 1) = i + 1 + j by omega] at this
        · obtain ⟨c, hc⟩ := hm
          refine ⟨c, ?_⟩
          rwa [show i + (k + 1) = i + 1 + k by omega] at hc
      rcases hpre 0 (Nat.succ_pos k) with ⟨s, hread, hcase⟩ | herr
      · have hread' : env.read i = ReadEvent.line s := by simpa using hread
        rcases hcase with hemp | hnm
        · subst hemp
          simp [waitLoop, hp0, hread', hrec]
        · by_cases hse : s = ""
          · simp [waitLoop, hp0, hread', hse, hrec]
          · simp [waitLoop, hp0, hread', hse, hnm, hrec]
      · have herr' : env.read i = ReadEvent.err := by simpa using herr
        simp [waitLoop, hp0, herr', hrec]

/-- Claim C5 (amended): for every dependency role — start_server2 with the
Server2 marker and 30 s window, start_server1 with the Server1 marker and
60 s window — if the launched process exits before printing its marker
(at any poll index k inside the window, after any amount of earlier
non-marker output, empty reads or decode errors), start returns failure
(a bare False — see the counterexample for why it carries no outcome),
the process remains in the tracked list, and the teardown loop reaps the
dead process without error (it is skipped: no terminate, no kill, no
exception). -/
theorem start_exited_tracked_and_reaped
    (s2 s1 : RunnerState) (g2 g1 : ProcHandle) (k2 k1 : Nat) (c2 c1 : Int)
    (hk2 : k2 < 300)
    (halive2 : ∀ j, j < k2 → g2.waitEnv.poll j = none)
    (hpre2 : ∀ j, j < k2 → (∃ s, g2.waitEnv.read j = ReadEvent.line s ∧
        (s = "" ∨ strContains (pyStrip s) server2Marker = false)) ∨
      g2.waitEnv.read j = ReadEvent.err)
    (hpoll2 : g2.waitEnv.poll k2 = some c2)
    (hdead2 : g2.proc.alive = false)
    (hk1 : k1 < 600)
    (halive1 : ∀ j, j < k1 → g1.waitEnv.poll j = none)
    (hpre1 : ∀ j, j < k1 → (∃ s, g1.waitEnv.read j = ReadEvent.line s ∧
        (s = "" ∨ strContains (pyStrip s) server1Marker = false)) ∨
      g1.waitEnv.read j = ReadEvent.err)
    (hpoll1 : g1.waitEnv.poll k1 = some c1)
    (hdead1 : g1.proc.alive = false) :
    ((start_server2 s2 (some g2)).2 = some false ∧
      g2.proc ∈ (start_server2 s2 (some g2)).1.processes ∧
      cleanupProc g2.proc = (g2.proc, [])) ∧
    ((start_server1 s1 (some g1)).2 = some false ∧
      g1.proc ∈ (start_server1 s1 (some g1)).1.processes ∧
      cleanupProc g1.proc = (g1.proc, [])) := by
  refine ⟨⟨?_, ?_, ?_⟩, ?_, ?_, ?_⟩
  · show waitLoop g2.waitEnv server2Marker 300 0 = some false
    apply waitLoop_reaches_exit g2.waitEnv server2Marker k2 300 0 hk2
    · intro j hj; simpa using halive2 j hj
    · intro j hj; simpa using hpre2 j hj
    · exact ⟨c2, by simpa using hpoll2⟩
  · simp [start_server2]
  · simp [cleanupProc, hdead2]
  · show waitLoop g1.waitEnv server1Marker 600 0 = some false
    apply waitLoop_reaches_exit g1.waitEnv server1Marker k1 600 0 hk1
    · intro j hj; simpa using halive1 j hj
    · intro j hj; simpa using hpre1 j hj
    · exact ⟨c1, by simpa using hpoll1⟩
  · simp [start_server1]
  · simp [cleanupProc, hdead1]

/-- Witness for the amended C5 theorem: for the Server2 role, hLateExit
prints one non-marker line and exits at the second poll; for the Server1
role, hExited exited with status 1 before any output. -/
theorem start_exited_tracked_and_reaped_witness :
    ((start_server2 ⟨[]⟩ (some hLateExit)).2 = some false ∧
      hLateExit.proc ∈ (start_server2 ⟨[]⟩ (some hLateExit)).1.processes ∧
      cleanupProc hLateExit.proc = (hLateExit.proc, [])) ∧
    ((start_server1 ⟨[]⟩ (some hExited)).2 = some false ∧
      hExited.proc ∈ (start_server1 ⟨[]⟩ (some hExited)).1.processes ∧
      cleanupProc hExited.proc = (hExited.proc, [])) :=
  start_exited_tracked_and_reaped ⟨[]⟩ ⟨[]⟩ hLateExit hExited 1 0 1 1
    (by decide)
    (fun j hj => by
      have hj0 : j = 0 := by omega
      subst hj0
      rfl)
    (fun j hj => by
      have hj0 : j = 0 := by omega
      subst hj0
      exact Or.inl ⟨"starting up", rfl, Or.inr (by decide)⟩)
    rfl
    rfl
    (by decide)
    (fun j hj => absurd hj (Nat.not_lt_zero j))
    (fun j hj => absurd hj (Nat.not_lt_zero j))
    rfl
    rfl

/-- Claim C8, the nesting bug: with lsof missing (raising) and netstat
perfectly able to see pid 77 listening on port 3002, cleanup_ports kills
nothing — the lsof failure aborts the whole per-port try block, skipping
the netstat backup.  With lsof merely finding nothing (envLsofEmpty,
identical netstat response), the netstat pass runs and kills 77.  The
lsof step's failure therefore blocks the netstat step. -/
theorem lsof_failure_blocks_netstat :
    (cleanup_ports envLsofMissing).1 = [] ∧
    (cleanup_ports envLsofMissing).2 = false ∧
    (cleanup_ports envLsofEmpty).1 = [Eff.kill "77", Eff.sleepMs 2000] ∧
    (cleanup_ports envLsofEmpty).2 = true :=
  ⟨by decide, by decide, by decide, by decide⟩

/-- Claim C10: if the lsof discovery raises or exits nonzero for every
managed port, check_ports_free returns true — undiscoverable ports are
treated as free. -/
theorem ports_free_when_undiscoverable (env : Env)
    (h : ∀ p ∈ ports, env.lsof p = none ∨ ∃ r, env.lsof p = some r ∧ ¬r.returncode = 0) :
    check_ports_free env = true := by
  unfold check_ports_free
  rw [List.all_eq_true]
  intro p hp
  rcases h p hp with h1 | ⟨r, hr, hrc⟩
  · simp [portInUse, h1]
  · simp [portInUse, hr, hrc]

/-- Witness for C10: no discovery tool available at all. -/
theorem ports_free_when_undiscoverable_witness :
    check_ports_free envNone = true :=
  ports_free_when_undiscoverable envNone (fun _ _ => Or.inl rfl)

/-- A process whose terminate- or kill-wait succeeds is dead after one
cleanup pass. -/
theorem cleanupProc_dead (p : Proc) (h : p.diesOnTerm = true ∨ p.diesOnKill = true) :
    ((cleanupProc p).1).alive = false := by
  unfold cleanupProc
  by_cases h1 : p.alive <;> by_cases h2 : p.diesOnTerm <;> by_cases h3 : p.diesOnKill <;>
    simp_all

/-- The tracked-process pass does nothing at all on a list of dead
processes. -/
theorem cleanupTracked_dead_noop (l : List Proc) (h : ∀ p ∈ l, p.alive = false) :
    cleanupTracked l = (l, []) := by
  induction l with
  | nil => rfl
  | cons p rest ih =>
    have hp := h p (List.mem_cons_self p rest)
    have hr := ih (fun q hq => h q (List.mem_cons_of_mem p hq))
    simp [cleanupTracked, cleanupProc, hp, hr]

/-- After one cleanup pass over processes that respond to terminate or
kill, every tracked process is dead. -/
theorem cleanupTracked_all_dead (l : List Proc)
    (h : ∀ p ∈ l, p.diesOnTerm = true ∨ p.diesOnKill = true) :
    ∀ q ∈ (cleanupTracked l).1, q.alive = false := by
  induction l with
  | nil => intro q hq; simp [cleanupTracked] at hq
  | cons p rest ih =>
    intro q hq
    simp only [cleanupTracked, List.mem_cons] at hq
    rcases hq with hq | hq
    · subst hq; exact cleanupProc_dead p (h p (by simp))
    · exact ih (fun r hr => h r (by simp [hr])) q hq

/-- Claim C7: cleanup is idempotent and safe to call twice — a second call
right after a first one (whose tracked processes all responded to
terminate or kill) leaves the state unchanged and performs no terminate
and no kill on any tracked process; and the embedding of cleanup is a
total function (every fallible step of the code is wrapped), so no
individual failure is thrown or propagated. -/
theorem cleanup_idempotent (s : RunnerState) (env env' : Env)
    (h : ∀ p ∈ s.processes, p.diesOnTerm = true ∨ p.diesOnKill = true) :
    (cleanup (cleanup s env).1 env').1 = (cleanup s env).1 ∧
    (cleanupTracked (cleanup s env).1.processes).2 = [] := by
  have hdead := cleanupTracked_all_dead s.processes h
  have hnoop := cleanupTracked_dead_noop (cleanupTracked s.processes).1 hdead
  constructor
  · simp [cleanup, hnoop]
  · simp [cleanup, hnoop]

/-- Witness for C7 at a one-process state. -/
theorem cleanup_idempotent_witness :
    (cleanup (cleanup ⟨[gentleProc 31]⟩ envNone).1 envNone).1 = (cleanup ⟨[gentleProc 31]⟩ envNone).1 ∧
    (cleanupTracked (cleanup ⟨[gentleProc 31]⟩ envNone).1.processes).2 = [] :=
  cleanup_idempotent ⟨[gentleProc 31]⟩ envNone envNone (by decide)

/-- Combining two passes: the OR of the flags matches a kill being in the
concatenated traces. -/
theorem flag_append_iff (t1 t2 : List Eff) (b1 b2 : Bool)
    (ha : b1 = true ↔ ∃ p, Eff.kill p ∈ t1) (hb : b2 = true ↔ ∃ p, Eff.kill p ∈ t2) :
    (b1 || b2) = true ↔ ∃ p, Eff.kill p ∈ t1 ++ t2 := by
  simp only [Bool.or_eq_true, List.mem_append]
  rw [ha, hb]
  constructor
  · rintro (⟨p, hp⟩ | ⟨p, hp⟩)
    · exact ⟨p, Or.inl hp⟩
    · exact ⟨p, Or.inr hp⟩
  · rintro ⟨p, hp | hp⟩
    · exact Or.inl ⟨p, hp⟩
    · exact Or.inr ⟨p, hp⟩

theorem killLoop_flag_iff (l : List String) :
    (killLoop l).2 = true ↔ ∃ p, Eff.kill p ∈ (killLoop l).1 := by
  induction l with
  | nil => simp [killLoop]
  | cons pid rest ih =>
    by_cases h : pyStrip pid = ""
    · simpa [killLoop, h] using ih
    · constructor
      · intro _
        exact ⟨pyStrip pid, by simp [killLoop, h]⟩
      · intro _
        simp [killLoop, h]

theorem lsofKills_flag_iff (r : CmdResult) :
    (lsofKills r).2 = true ↔ ∃ p, Eff.kill p ∈ (lsofKills r).1 := by
  unfold lsofKills
  split
  · exact killLoop_flag_iff _
  · simp

theorem netstatParts_flag_iff (l : List String) :
    (netstatParts l).2 = true ↔ ∃ p, Eff.kill p ∈ (netstatParts l).1 := by
  induction l with
  | nil => simp [netstatParts]
  | cons part rest ih =>
    by_cases h1 : strContains part "/"
    · by_cases h2 : pyIsDigit ⟨beforeChar '/' part.data⟩
      · constructor
        · intro _
          exact ⟨⟨beforeChar '/' part.data⟩, by simp [netstatParts, h1, h2]⟩
        · intro _
          simp [netstatParts, h1, h2]
      · simpa [netstatParts, h1, h2] using ih
    · simpa [netstatParts, h1] using ih

theorem netstatLines_flag_iff (p : Nat) (l : List String) :
    (netstatLines p l).2 = true ↔ ∃ q, Eff.kill q ∈ (netstatLines p l).1 := by
  induction l with
  | nil => simp [netstatLines]
  | cons line rest ih =>
    by_cases h : strContains line (portColon p) && strContains line "LISTEN"
    · simpa [netstatLines, h] using
        flag_append_iff (netstatParts (pySplitWs line)).1 (netstatLines p rest).1
          (netstatParts (pySplitWs line)).2 (netstatLines p rest).2
          (netstatParts_flag_iff _) ih
    · simpa [netstatLines, h] using ih

theorem netstatKills_flag_iff (p : Nat) (r : CmdResult) :
    (netstatKills p r).2 = true ↔ ∃ q, Eff.kill q ∈ (netstatKills p r).1 := by
  unfold netstatKills
  split
  · exact netstatLines_flag_iff _ _
  · simp

theorem pgrepLoop_flag_iff (l : List String) :
    (pgrepLoop l).2 = true ↔ ∃ p, Eff.kill p ∈ (pgrepLoop l).1 := by
  induction l with
  | nil => simp [pgrepLoop]
  | cons pid rest ih =>
    by_cases h : pyStrip pid = ""
    · simpa [pgrepLoop, h] using ih
    · constructor
      · intro _
        exact ⟨pyStrip pid, by simp [pgrepLoop, h]⟩
      · intro _
        simp [pgrepLoop, h]

theorem pgrepKills_flag_iff (o : Option CmdResult) :
    (pgrepKills o).2 = true ↔ ∃ p, Eff.kill p ∈ (pgrepKills o).1 := by
  cases o with
  | none => simp [pgrepKills]
  | some r =>
    by_cases h : r.returncode = 0 ∧ pyStrip r.stdout ≠ ""
    · simpa [pgrepKills, h] using pgrepLoop_flag_iff (pySplitOn (pyStrip r.stdout) '\n')
    · simp [pgrepKills, h]

theorem portPass_flag_iff (env : Env) (p : Nat) :
    (portPass env p).2 = true ↔ ∃ q, Eff.kill q ∈ (portPass env p).1 := by
  cases hl : env.lsof p with
  | none => simp [portPass, hl]
  | some r =>
    cases hn : env.netstat p with
    | none =>
      simpa [portPass, hl, hn] using
        flag_append_iff (lsofKills r).1 [] (lsofKills r).2 false (lsofKills_flag_iff r) (by simp)
    | some r2 =>
      simpa [portPass, hl, hn] using
        flag_append_iff (lsofKills r).1 (netstatKills p r2).1 (lsofKills r).2 (netstatKills p r2).2
          (lsofKills_flag_iff r) (netstatKills_flag_iff p r2)

/-- The per-port foldl of cleanup_ports_body, written out for the two
managed ports. -/
theorem cleanup_ports_body_eq (env : Env) :
    cleanup_ports_body env =
      ((portPass env 3002).1 ++ (portPass env 3004).1 ++ (pgrepKills env.pgrepRpc).1
         ++ (pgrepKills env.pgrepCargo).1,
       (portPass env 3002).2 || (portPass env 3004).2 || (pgrepKills env.pgrepRpc).2
         || (pgrepKills env.pgrepCargo).2) := by
  simp [cleanup_ports_body, ports]

theorem cleanup_ports_body_flag_iff (env : Env) :
    (cleanup_ports_body env).2 = true ↔ ∃ q, Eff.kill q ∈ (cleanup_ports_body env).1 := by
  rw [cleanup_ports_body_eq]
  have h1 := flag_append_iff (portPass env 3002).1 (portPass env 3004).1
    (portPass env 3002).2 (portPass env 3004).2 (portPass_flag_iff env 3002) (portPass_flag_iff env 3004)
  have h2 := flag_append_iff _ _ _ _ h1 (pgrepKills_flag_iff env.pgrepRpc)
  have h3 := flag_append_iff _ _ _ _ h2 (pgrepKills_flag_iff env.pgrepCargo)
  simpa [List.append_assoc] using h3

/-- Every effect the lsof kill loop emits is a kill or the 0.1 s pause. -/
theorem killLoop_mem (l : List String) :
    ∀ e ∈ (killLoop l).1, (∃ p, e = Eff.kill p) ∨ e = Eff.sleepMs 100 := by
  induction l with
  | nil => intro e he; simp [killLoop] at he
  | cons pid rest ih =>
    intro e he
    by_cases h : pyStrip pid = ""
    · exact ih e (by simpa [killLoop, h] using he)
    · simp only [killLoop, h, ne_eq, not_false_iff, if_true, List.mem_cons] at he
      rcases he with he | he | he
      · exact Or.inl ⟨_, he⟩
      · exact Or.inr he
      · exact ih e he

theorem lsofKills_mem (r : CmdResult) :
    ∀ e ∈ (lsofKills r).1, (∃ p, e = Eff.kill p) ∨ e = Eff.sleepMs 100 := by
  unfold lsofKills
  split
  · exact killLoop_mem _
  · intro e he; simp at he

/-- The netstat scan emits only kills. -/
theorem netstatParts_mem (l : List String) :
    ∀ e ∈ (netstatParts l).1, ∃ p, e = Eff.kill p := by
  induction l with
  | nil => intro e he; simp [netstatParts] at he
  | cons part rest ih =>
    intro e he
    by_cases h1 : strContains part "/"
    · by_cases h2 : pyIsDigit ⟨beforeChar '/' part.data⟩
      · simp only [netstatParts, h1, h2, if_true, List.mem_cons] at he
        rcases he with he | he
        · exact ⟨_, he⟩
        · exact ih e he
      · exact ih e (by simpa [netstatParts, h1, h2] using he)
    · exact ih e (by simpa [netstatParts, h1] using he)

theorem netstatLines_mem (p : Nat) (l : List String) :
    ∀ e ∈ (netstatLines p l).1, ∃ q, e = Eff.kill q := by
  induction l with
  | nil => intro e he; simp [netstatLines] at he
  | cons line rest ih =>
    intro e he
    by_cases h : strContains line (portColon p) && strContains line "LISTEN"
    · simp only [netstatLines, h, if_true, List.mem_append] at he
      rcases he with he | he
      · exact netstatParts_mem _ e he
      · exact ih e he
    · exact ih e (by simpa [netstatLines, h] using he)

theorem netstatKills_mem (p : Nat) (r : CmdResult) :
    ∀ e ∈ (netstatKills p r).1, ∃ q, e = Eff.kill q := by
  unfold netstatKills
  split
  · exact netstatLines_mem _ _
  · intro e he; simp at he

theorem pgrepLoop_mem (l : List String) :
    ∀ e ∈ (pgrepLoop l).1, ∃ p, e = Eff.kill p := by
  induction l with
  | nil => intro e he; simp [pgrepLoop] at he
  | cons pid rest ih =>
    intro e he
    by_cases h : pyStrip pid = ""
    · exact ih e (by simpa [pgrepLoop, h] using he)
    · simp only [pgrepLoop, h, ne_eq, not_false_iff, if_true, List.mem_cons] at he
      rcases he with he | he
      · exact ⟨_, he⟩
      · exact ih e he

theorem pgrepKills_mem (o : Option CmdResult) :
    ∀ e ∈ (pgrepKills o).1, ∃ p, e = Eff.kill p := by
  cases o with
  | none => intro e he; simp [pgrepKills] at he
  | some r =>
    by_cases h : r.returncode = 0 ∧ pyStrip r.stdout ≠ ""
    · intro e he
      exact pgrepLoop_mem _ e (by simpa [pgrepKills, h] using he)
    · intro e he; simp [pgrepKills, h] at he

theorem portPass_mem (env : Env) (p : Nat) :
    ∀ e ∈ (portPass env p).1, (∃ q, e = Eff.kill q) ∨ e = Eff.sleepMs 100 := by
  cases hl : env.lsof p with
  | none => intro e he; simp [portPass, hl] at he
  | some r =>
    cases hn : env.netstat p with
    | none =>
      intro e he
      simp only [portPass, hl, hn, List.append_nil] at he
      exact lsofKills_mem r e he
    | some r2 =>
      intro e he
      simp only [portPass, hl, hn, List.mem_append] at he
      rcases he with he | he
      · exact lsofKills_mem r e he
      · exact Or.inl (netstatKills_mem p r2 e he)

/-- Everything methods 1-4 emit is a kill or the 0.1 s pause. -/
theorem cleanup_ports_body_mem (env : Env) :
    ∀ e ∈ (cleanup_ports_body env).1, (∃ q, e = Eff.kill q) ∨ e = Eff.sleepMs 100 := by
  rw [cleanup_ports_body_eq]
  intro e he
  simp only [List.mem_append] at he
  rcases he with ((he | he) | he) | he
  · exact portPass_mem env 3002 e he
  · exact portPass_mem env 3004 e he
  · exact Or.inl (pgrepKills_mem env.pgrepRpc e he)
  · exact Or.inl (pgrepKills_mem env.pgrepCargo e he)

/-- cleanup_ports unfolded into methods 1-4 plus the conditional final
2 s sleep. -/
theorem cleanup_ports_eq (env : Env) :
    cleanup_ports env =
      ((cleanup_ports_body env).1
         ++ (if (cleanup_ports_body env).2 then [Eff.sleepMs 2000] else []),
       (cleanup_ports_body env).2) := rfl

/-- Claim C4 (amended): the internal killed_any flag of cleanup_ports is
the logical OR of whether any kill occurred across all discovery/kill
steps (it is set exactly when a kill effect is in the trace), and it is
consumed INSIDE the function — cleanup_ports itself performs the 2 s
settling sleep exactly when the flag is set — rather than being returned
for the caller to decide (the function returns None, see the
counterexample). -/
theorem kill_notin_tail (b : Bool) (q : String) :
    Eff.kill q ∉ (if b then [Eff.sleepMs 2000] else []) := by
  cases b <;> simp

theorem killed_any_is_or_of_kills (env : Env) :
    ((cleanup_ports env).2 = true ↔ ∃ p, Eff.kill p ∈ (cleanup_ports env).1) ∧
    ((cleanup_ports env).2 = true → Eff.sleepMs 2000 ∈ (cleanup_ports env).1) ∧
    ((cleanup_ports env).2 = false → Eff.sleepMs 2000 ∉ (cleanup_ports env).1) := by
  rw [cleanup_ports_eq]
  refine ⟨?_, ?_, ?_⟩
  · constructor
    · intro h
      obtain ⟨q, hq⟩ := (cleanup_ports_body_flag_iff env).mp h
      exact ⟨q, List.mem_append_left _ hq⟩
    · rintro ⟨q, hq⟩
      rcases List.mem_append.mp hq with h1 | h2
      · exact (cleanup_ports_body_flag_iff env).mpr ⟨q, h1⟩
      · exact absurd h2 (kill_notin_tail _ q)
  · intro h
    rw [if_pos h]
    exact List.mem_append_right _ (by simp)
  · intro h
    have hne : ¬((cleanup_ports_body env).2 = true) := by
      rw [h]; exact Bool.false_ne_true
    rw [if_neg hne, List.append_nil]
    intro hmem
    rcases cleanup_ports_body_mem env _ hmem with ⟨q, hq⟩ | hq
    · exact absurd hq (by simp)
    · exact absurd hq (by simp)

/-- Witness for the amended C4 theorem in a world where lsof finds and
kills pid 123. -/
theorem killed_any_is_or_of_kills_witness :
    ((cleanup_ports envLsofFinds).2 = true ↔ ∃ p, Eff.kill p ∈ (cleanup_ports envLsofFinds).1) ∧
    ((cleanup_ports envLsofFinds).2 = true → Eff.sleepMs 2000 ∈ (cleanup_ports envLsofFinds).1) ∧
    ((cleanup_ports envLsofFinds).2 = false → Eff.sleepMs 2000 ∉ (cleanup_ports envLsofFinds).1) :=
  killed_any_is_or_of_kills envLsofFinds

/-- Claim C2, counterexample: a signal received while Server1 is being
awaited triggers cleanup in the handler, and the SystemExit raised by the
handler's sys.exit(0) then unwinds through run's finally block, which
invokes cleanup a second time — the teardown pass runs twice, not exactly
once, because nothing guards it against re-entry. -/
theorem double_cleanup_on_signal :
    cleanupCount (traceOf (runMyco wSig)) = 2 := by decide

/-- If the child stays alive and produces prompt non-marker lines for k
iterations and a marker-containing line at iteration k, the polling loop
returns true, provided k ticks fit inside the deadline. -/
theorem waitLoop_reaches_marker (env : WaitEnv) (marker : String) :
    ∀ k fuel i, k < fuel →
    (∀ j, j ≤ k → env.poll (i + j) = none) →
    (∀ j, j < k → ∃ s, env.read (i + j) = ReadEvent.line s ∧ s ≠ "" ∧
      strContains (pyStrip s) marker = false) →
    (∃ s, env.read (i + k) = ReadEvent.line s ∧ s ≠ "" ∧
      strContains (pyStrip s) marker = true) →
    waitLoop env marker fuel i = some true := by
  intro k
  induction k with
  | zero =>
    intro fuel i hf hp _ hm
    obtain ⟨s, hread, hne, hc⟩ := hm
    match fuel, hf with
    | fuel + 1, _ =>
      have hp0 : env.poll i = none := by simpa using hp 0 (Nat.le_refl 0)
      have hread' : env.read i = ReadEvent.line s := by simpa using hread
      simp [waitLoop, hp0, hread', hne, hc]
  | succ k ih =>
    intro fuel i hf hp hpre hm
    match fuel, hf with
    | fuel + 1, hf =>
      have hp0 : env.poll i = none := by simpa using hp 0 (Nat.zero_le _)
      obtain ⟨s, hread, hne, hc⟩ := hpre 0 (Nat.succ_pos k)
      have hread' : env.read i = ReadEvent.line s := by simpa using hread
      have hrec : waitLoop env marker fuel (i + 1) = some true := by
        apply ih fuel (i + 1) (Nat.lt_of_succ_lt_succ hf)
        · intro j hj
          have := hp (j + 1) (Nat.succ_le_succ hj)
          rwa [show i + (j + 1) = i + 1 + j by omega] at this
        · intro j hj
          have := hpre (j + 1) (Nat.succ_lt_succ hj)
          rwa [show i + (j + 1) = i + 1 + j by omega] at this
        · have := hm
          rwa [show i + (k + 1) = i + 1 + k by omega] at this
      simp [waitLoop, hp0, hread', hne, hc, hrec]

/-- Claim C6: if the process stays alive and within the timeout prints a
line CONTAINING the marker substring (after stripping, as part of a longer
line — no full-line match required), wait_for_server_ready returns Ready
(true), exactly once, at that line. -/
theorem wait_ready_on_marker_line (env : WaitEnv) (marker : String) (timeoutTicks k : Nat)
    (hk : k < timeoutTicks)
    (hp : ∀ j, j ≤ k → env.poll j = none)
    (hpre : ∀ j, j < k → ∃ s, env.read j = ReadEvent.line s ∧ s ≠ "" ∧
      strContains (pyStrip s) marker = false)
    (hm : ∃ s, env.read k = ReadEvent.line s ∧ s ≠ "" ∧
      strContains (pyStrip s) marker = true) :
    wait_for_server_ready env marker timeoutTicks = some true := by
  unfold wait_for_server_ready
  apply waitLoop_reaches_marker env marker k timeoutTicks 0 hk
  · intro j hj; simpa using hp j hj
  · intro j hj; simpa using hpre j hj
  · simpa using hm

/-- Witness for C6: the marker appears embedded in a longer log line on the
very first read. -/
theorem wait_ready_on_marker_line_witness :
    wait_for_server_ready readyEnv2 server2Marker 300 = some true :=
  wait_ready_on_marker_line readyEnv2 server2Marker 300 0 (by decide)
    (fun _ _ => rfl)
    (fun j hj => absurd hj (Nat.not_lt_zero j))
    ⟨"[server2] Server2 listening on 127.0.0.1:3004 (tls)", rfl, by decide, by decide⟩

theorem cleanupCount_append (a b : List Eff) :
    cleanupCount (a ++ b) = cleanupCount a + cleanupCount b := by
  simp [cleanupCount, List.count_append]

/-- cleanup_ports never prints the cleanup banner. -/
theorem cleanup_ports_count_zero (env : Env) : cleanupCount (cleanup_ports env).1 = 0 := by
  unfold cleanupCount
  rw [List.count_eq_zero]
  intro hmem
  rw [cleanup_ports_eq] at hmem
  rcases List.mem_append.mp hmem with h | h
  · rcases cleanup_ports_body_mem env _ h with ⟨q, hq⟩ | hq <;> simp at hq
  · by_cases hb : (cleanup_ports_body env).2 = true
    · rw [if_pos hb] at h; simp at h
    · rw [if_neg hb] at h; simp at h

theorem cleanupProc_mem (p : Proc) :
    ∀ e ∈ (cleanupProc p).2, (∃ n, e = Eff.term n) ∨ ∃ n, e = Eff.killProc n := by
  intro e he
  unfold cleanupProc at he
  by_cases h1 : p.alive
  · by_cases h2 : p.diesOnTerm
    · simp [h1, h2] at he
      exact Or.inl ⟨_, he⟩
    · by_cases h3 : p.diesOnKill
      · simp [h1, h2, h3] at he
        rcases he with he | he
        · exact Or.inl ⟨_, he⟩
        · exact Or.inr ⟨_, he⟩
      · simp [h1, h2, h3] at he
        rcases he with he | he
        · exact Or.inl ⟨_, he⟩
        · exact Or.inr ⟨_, he⟩
  · simp [h1] at he

theorem cleanupProc_count_zero (p : Proc) : cleanupCount (cleanupProc p).2 = 0 := by
  unfold cleanupCount
  rw [List.count_eq_zero]
  intro hmem
  rcases cleanupProc_mem p _ hmem with ⟨n, hn⟩ | ⟨n, hn⟩ <;> simp at hn

theorem cleanupTracked_count_zero (l : List Proc) :
    cleanupCount (cleanupTracked l).2 = 0 := by
  induction l with
  | nil => rfl
  | cons p rest ih =>
    have : (cleanupTracked (p :: rest)).2 = (cleanupProc p).2 ++ (cleanupTracked rest).2 := rfl
    rw [this, cleanupCount_append, cleanupProc_count_zero, ih]

theorem cleanup_trace_eq (s : RunnerState) (env : Env) :
    (cleanup s env).2 = Eff.echo cleanupBanner ::
      ((cleanupTracked s.processes).2 ++ (cleanup_ports env).1 ++ [Eff.pkill "rpc_server"]) := rfl

/-- Each cleanup call contributes exactly one banner to the trace. -/
theorem cleanup_count_one (s : RunnerState) (env : Env) :
    cleanupCount (cleanup s env).2 = 1 := by
  rw [cleanup_trace_eq]
  unfold cleanupCount
  rw [List.count_cons_self, List.count_append, List.count_append]
  have h1 := cleanupTracked_count_zero s.processes
  have h2 := cleanup_ports_count_zero env
  unfold cleanupCount at h1 h2
  rw [h1, h2]
  decide

/-- run_client succeeds exactly on client exit status 0. -/
theorem run_client_eq (r : Option Int) : run_client r = (r == some 0) := by
  cases r with
  | none => rfl
  | some n =>
    by_cases h : n = 0
    · simp [run_client, h]
    · have hne : (some n == some (0 : Int)) = false := by
        rw [beq_eq_false_iff_ne]
        simp [h]
      simp [run_client, h, hne]

/-- In a signal-free run whose readiness waits return, the started phases
always end in a normal return carrying success = startedClean and a trace
that is the inherited prefix plus exactly one finally-cleanup. -/
theorem runStarted_eq (w : RunWorld) (tr0 : List Eff) (hsig : w.sig = none)
    (h2 : ∀ h, w.spawn2 = some h → wait_for_server_ready h.waitEnv server2Marker 300 ≠ none)
    (h1 : ∀ h, w.spawn1 = some h → wait_for_server_ready h.waitEnv server1Marker 600 ≠ none) :
    ∃ sIn : RunnerState, runStarted w tr0 =
      RunResult.returned (startedClean w) (cleanup sIn w.finalEnv).1
        (tr0 ++ (cleanup sIn w.finalEnv).2) := by
  have hns2 : ¬(w.sig = some SigPoint.duringS2) := by rw [hsig]; simp
  have hns1 : ¬(w.sig = some SigPoint.duringS1) := by rw [hsig]; simp
  have hnsc : ¬(w.sig = some SigPoint.duringClient) := by rw [hsig]; simp
  cases hs2 : w.spawn2 with
  | none =>
    refine ⟨⟨[]⟩, ?_⟩
    simp [runStarted, finallyReturn, start_server2, startedClean, readyOutcome, hs2, hns2]
  | some h =>
    cases hw2 : wait_for_server_ready h.waitEnv server2Marker 300 with
    | none => exact absurd hw2 (h2 h hs2)
    | some b2 =>
      cases b2 with
      | false =>
        refine ⟨⟨[h.proc]⟩, ?_⟩
        simp [runStarted, finallyReturn, start_server2, startedClean, readyOutcome, hs2, hw2, hns2]
      | true =>
        cases hs1 : w.spawn1 with
        | none =>
          refine ⟨⟨[h.proc]⟩, ?_⟩
          simp [runStarted, finallyReturn, start_server2, start_server1, startedClean,
            readyOutcome, hs2, hw2, hs1, hns2, hns1]
        | some g =>
          cases hw1 : wait_for_server_ready g.waitEnv server1Marker 600 with
          | none => exact absurd hw1 (h1 g hs1)
          | some b1 =>
            cases b1 with
            | false =>
              refine ⟨⟨[h.proc, g.proc]⟩, ?_⟩
              simp [runStarted, finallyReturn, start_server2, start_server1, startedClean,
                readyOutcome, hs2, hw2, hs1, hw1, hns2, hns1]
            | true =>
              refine ⟨⟨[h.proc, g.proc]⟩, ?_⟩
              simp [runStarted, finallyReturn, start_server2, start_server1, startedClean,
                readyOutcome, run_client_eq, hs2, hw2, hs1, hw1, hns2, hns1, hnsc]

/-- Claim C2 (amended): in a signal-free run that passes the preflight port
check (and whose readiness waits return), the teardown pass executes
exactly once — via run's finally block.  It is NOT guarded against
re-entrancy: a signal during the started phases triggers it twice (see the
counterexample), and a run failing the preflight check returns before the
try block and never executes it. -/
theorem cleanup_once_without_signal (w : RunWorld) (hsig : w.sig = none)
    (h2 : ∀ h, w.spawn2 = some h → wait_for_server_ready h.waitEnv server2Marker 300 ≠ none)
    (h1 : ∀ h, w.spawn1 = some h → wait_for_server_ready h.waitEnv server1Marker 600 ≠ none)
    (hports : (check_ports_free w.checkEnv1 || check_ports_free w.checkEnv2) = true) :
    cleanupCount (traceOf (runMyco w)) = 1 := by
  have hnp : ¬(w.sig = some SigPoint.preflight) := by rw [hsig]; simp
  by_cases hc1 : check_ports_free w.checkEnv1
  · obtain ⟨sIn, hrs⟩ := runStarted_eq w ((cleanup_ports w.preEnv).1) hsig h2 h1
    have hrm : runMyco w = runStarted w ((cleanup_ports w.preEnv).1) := by
      simp [runMyco, hnp, hc1]
    rw [hrm, hrs]
    simp only [traceOf]
    rw [cleanupCount_append, cleanup_ports_count_zero, cleanup_count_one]
  · have hc2 : check_ports_free w.checkEnv2 = true := by
      rcases (Bool.or_eq_true _ _).mp hports with hx | hx
      · exact absurd hx hc1
      · exact hx
    obtain ⟨sIn, hrs⟩ := runStarted_eq w
      ((cleanup_ports w.preEnv).1
        ++ [Eff.pkill "rpc_server", Eff.pkill "cargo.*rpc_server", Eff.sleepMs 1000]
        ++ (cleanup_ports w.aggrEnv).1) hsig h2 h1
    have hrm : runMyco w = runStarted w
        ((cleanup_ports w.preEnv).1
          ++ [Eff.pkill "rpc_server", Eff.pkill "cargo.*rpc_server", Eff.sleepMs 1000]
          ++ (cleanup_ports w.aggrEnv).1) := by
      simp [runMyco, hnp, hc1, hc2]
    rw [hrm, hrs]
    simp only [traceOf]
    rw [cleanupCount_append, cleanup_count_one, cleanupCount_append, cleanupCount_append,
      cleanup_ports_count_zero, cleanup_ports_count_zero]
    decide

/-- Witness for the amended C2 theorem: the fully successful concrete run
performs exactly one teardown. -/
theorem cleanup_once_without_signal_witness :
    cleanupCount (traceOf (runMyco wGood)) = 1 := by
  refine cleanup_once_without_signal wGood rfl ?_ ?_ (by decide)
  · intro h hh
    have hh' : some hReady2 = some h := hh
    injection hh' with he
    subst he
    decide
  · intro g hh
    have hh' : some hReady1 = some g := hh
    injection hh' with he
    subst he
    decide

/-- Claim C9, counterexample: the signal-interrupted run exits with status
0 although it is not a full success (the client never ran) — so exit code
0 is NOT equivalent to full success once signals are in the picture. -/
theorem signal_run_exits_zero_without_success :
    (mainMyco wSigMain).map Prod.fst = some 0 ∧ runsClean wSigMain = false :=
  ⟨by decide, by decide⟩

/-- Claim C9 (amended): in runs where no signal is delivered and each
readiness wait returns, the process exits 0 exactly when the run fully
succeeds (preconditions hold, a port check passes, both dependencies
become ready, client exits 0) and exits 1 on every failure: missing
justfile, missing task runner, port-reclamation failure, a dependency
failing to start or become ready, or nonzero client exit. -/
theorem exit_code_matches_success (w : MainWorld) (hsig : w.runWorld.sig = none)
    (h2 : ∀ h, w.runWorld.spawn2 = some h →
      wait_for_server_ready h.waitEnv server2Marker 300 ≠ none)
    (h1 : ∀ h, w.runWorld.spawn1 = some h →
      wait_for_server_ready h.waitEnv server1Marker 600 ≠ none) :
    ∃ tr, mainMyco w = some ((bif runsClean w then 0 else 1), tr) := by
  have hnp : ¬(w.runWorld.sig = some SigPoint.preflight) := by rw [hsig]; simp
  cases hjf : w.justfileExists with
  | false =>
    refine ⟨[], ?_⟩
    have hrc : runsClean w = false := by simp [runsClean, hjf]
    rw [hrc]
    simp [mainMyco, hjf]
  | true =>
    cases hja : w.justAvailable with
    | false =>
      refine ⟨[], ?_⟩
      have hrc : runsClean w = false := by simp [runsClean, hja]
      rw [hrc]
      simp [mainMyco, hjf, hja]
    | true =>
      cases hc1 : check_ports_free w.runWorld.checkEnv1 with
      | true =>
        obtain ⟨sIn, hrs⟩ :=
          runStarted_eq w.runWorld ((cleanup_ports w.runWorld.preEnv).1) hsig h2 h1
        have hrm : runMyco w.runWorld =
            runStarted w.runWorld ((cleanup_ports w.runWorld.preEnv).1) := by
          simp [runMyco, hnp, hc1]
        refine ⟨(cleanup_ports w.runWorld.preEnv).1
          ++ (cleanup sIn w.runWorld.finalEnv).2, ?_⟩
        have hrc : runsClean w = startedClean w.runWorld := by
          simp [runsClean, hjf, hja, hc1]
        rw [hrc]
        simp only [mainMyco, hjf, hja, Bool.not_true, Bool.false_eq_true, if_false]
        rw [hrm, hrs]
      | false =>
        cases hc2 : check_ports_free w.runWorld.checkEnv2 with
        | true =>
          obtain ⟨sIn, hrs⟩ := runStarted_eq w.runWorld
            ((cleanup_ports w.runWorld.preEnv).1
              ++ [Eff.pkill "rpc_server", Eff.pkill "cargo.*rpc_server", Eff.sleepMs 1000]
              ++ (cleanup_ports w.runWorld.aggrEnv).1) hsig h2 h1
          have hrm : runMyco w.runWorld = runStarted w.runWorld
              ((cleanup_ports w.runWorld.preEnv).1
                ++ [Eff.pkill "rpc_server", Eff.pkill "cargo.*rpc_server", Eff.sleepMs 1000]
                ++ (cleanup_ports w.runWorld.aggrEnv).1) := by
            simp [runMyco, hnp, hc1, hc2]
          refine ⟨(cleanup_ports w.runWorld.preEnv).1
            ++ [Eff.pkill "rpc_server", Eff.pkill "cargo.*rpc_server", Eff.sleepMs 1000]
            ++ (cleanup_ports w.runWorld.aggrEnv).1
            ++ (cleanup sIn w.runWorld.finalEnv).2, ?_⟩
          have hrc : runsClean w = startedClean w.runWorld := by
            simp [runsClean, hjf, hja, hc2]
          rw [hrc]
          simp only [mainMyco, hjf, hja, Bool.not_true, Bool.false_eq_true, if_false]
          rw [hrm, hrs]
        | false =>
          refine ⟨(cleanup_ports w.runWorld.preEnv).1
            ++ [Eff.pkill "rpc_server", Eff.pkill "cargo.*rpc_server", Eff.sleepMs 1000]
            ++ (cleanup_ports w.runWorld.aggrEnv).1, ?_⟩
          have hrc : runsClean w = false := by simp [runsClean, hc1, hc2]
          rw [hrc]
          have hrm : runMyco w.runWorld = RunResult.returned false ⟨[]⟩
              ((cleanup_ports w.runWorld.preEnv).1
                ++ [Eff.pkill "rpc_server", Eff.pkill "cargo.*rpc_server", Eff.sleepMs 1000]
                ++ (cleanup_ports w.runWorld.aggrEnv).1) := by
            simp [runMyco, hnp, hc1, hc2]
          simp only [mainMyco, hjf, hja, Bool.not_true, Bool.false_eq_true, if_false]
          rw [hrm]

/-- Witness for the amended C9 theorem at the fully successful world. -/
theorem exit_code_matches_success_witness :
    ∃ tr, mainMyco wGoodMain = some ((bif runsClean wGoodMain then 0 else 1), tr) := by
  refine exit_code_matches_success wGoodMain rfl ?_ ?_
  · intro h hh
    have hh' : some hReady2 = some h := hh
    injection hh' with he
    subst he
    decide
  · intro g hh
    have hh' : some hReady1 = some g := hh
    injection hh' with he
    subst he
    decide

end Myco